import Mathlib

/-!
Verification of the Turbinia evidence-upload route (turbinia/api/routes/evidence.py)
and of BulkExtractorTask (turbinia/workers/bulk_extractor.py), via a shallow
embedding of the relevant Python code into Lean.
-/

namespace Turbinia

/-- Python exception values reachable in the modelled code paths. -/
inductive PyError where
  | typeError (msg : String)
  | ioError (msg : String)
  | keyError (msg : String)
  | attributeError (msg : String)
  | xmlParseError (msg : String)
  | indexError (msg : String)
  | valueError (msg : String)
  | turbiniaException (msg : String)
deriving DecidableEq, Repr

/-- Bytes of an uploaded stream. The SHA3-224 digest computed by
`upload_file` is modelled by the byte sequence itself (an injective
stand-in for the cryptographic hash). -/
abbrev ByteStream := List Nat

/-- A FastAPI upload object as used by the route: it exposes `filename`
(the attribute read at the call site, evidence.py lines 182-183, 197)
and the byte stream served by `file.read`. -/
structure UploadedFile where
  filename : String
  content : ByteStream
deriving DecidableEq, Repr

/-- The two configuration constants read by `upload_file`
(`turbinia_config.CHUNK_SIZE` and `turbinia_config.MAX_UPLOAD_SIZE`). -/
structure UploadConfig where
  chunkSize : Nat
  maxUploadSize : Nat
deriving DecidableEq, Repr

/-- The IOError message raised by `upload_file` (evidence.py lines 63-65).
It names the file and the configured limit (which the source renders in GB
via float division, abstracted here); it does not mention the cumulative
size counter. -/
def sizeErrorMessage (filename : String) (maxUploadSize : Nat) : String :=
  "Unable to upload file " ++ filename ++ " greater than " ++
    toString maxUploadSize ++ " bytes"

/-- The chunked write loop of `upload_file` (evidence.py lines 53-67):
reads up to `chunkSize` bytes per iteration, writes them, optionally feeds
the hash, and adds `chunkSize` (not the number of bytes actually read) to
the running `size` counter; raises IOError the moment `size` reaches
`maxUploadSize`.  The loop condition re-reads a chunk each iteration and
exits when the chunk is empty or `size` is at the limit.  `fuel` is
instantiated with one more than the stream length, strictly more than the
number of iterations the loop can make (each continuing iteration consumes
at least one byte), so the fuel-exhausted branch is unreachable. -/
def upload_file_loop (cfg : UploadConfig) (filename : String)
    (calculateHash : Bool) :
    Nat → ByteStream → Nat → ByteStream → ByteStream →
    Except PyError (Nat × ByteStream × ByteStream)
  | 0, _, size, written, hashed => .ok (size, written, hashed)
  | fuel + 1, stream, size, written, hashed =>
    let chunk := stream.take cfg.chunkSize
    if chunk = [] ∨ cfg.maxUploadSize ≤ size then
      .ok (size, written, hashed)
    else
      let written' := written ++ chunk
      let hashed' := if calculateHash then hashed ++ chunk else hashed
      let size' := size + cfg.chunkSize
      if cfg.maxUploadSize ≤ size' then
        .error (.ioError (sizeErrorMessage filename cfg.maxUploadSize))
      else
        upload_file_loop cfg filename calculateHash fuel
          (stream.drop cfg.chunkSize) size' written' hashed'

/-- `upload_file` with the semantics its body has when actually awaited
(evidence.py lines 38-76).  After the loop, the source builds the
`file_info` dict starting from `file.file_name`; the upload object exposes
`filename` (as read ten lines below in `upload_evidence`), not `file_name`,
so the success path raises AttributeError before the dict is produced. -/
def upload_file (cfg : UploadConfig) (file : UploadedFile)
    (calculateHash : Bool) : Except PyError (List (String × String)) :=
  match upload_file_loop cfg file.filename calculateHash
      (file.content.length + 1) file.content 0 [] [] with
  | .error e => .error e
  | .ok _ => .error (.attributeError "UploadFile object has no attribute file_name")

/-- The Redis-backed evidence store as seen through
`redis_manager.get_evidence_key_by_hash`: a hash-to-key index. -/
structure EvidenceStore where
  byHash : List (String × String)
deriving DecidableEq, Repr

/-- `RedisStateManager.get_evidence_key_by_hash`: the evidence key stored
under a content hash, if any. -/
def get_evidence_key_by_hash (store : EvidenceStore) (fileHash : String) :
    Option String :=
  (store.byHash.find? (fun p => p.1 == fileHash)).map (fun p => p.2)

/-- The Python value bound to `file_info` in `upload_evidence` line 190:
`upload_file` is an async function invoked without `await`, so the binding
is a coroutine object and the function body never runs.  The `dict`
constructor stands for the value `upload_file` would return if awaited. -/
inductive FileInfoVal where
  | coroutine
  | dict (entries : List (String × String))
deriving DecidableEq, Repr

/-- Python subscript `file_info[key]`: a coroutine object is not
subscriptable (TypeError); a dict raises KeyError on a missing key. -/
def pySubscript : FileInfoVal → String → Except PyError String
  | .coroutine, _ => .error (.typeError "coroutine object is not subscriptable")
  | .dict entries, key =>
    match entries.find? (fun p => p.1 == key) with
    | some p => .ok p.2
    | none => .error (.keyError key)

/-- Body of the per-file loop of `upload_evidence` (evidence.py lines
181-206).  `file_info = upload_file(file, file_path, calculate_hash)`
binds a coroutine object (the async helper is not awaited), so the
`except IOError` clause is unreachable, and the subsequent subscript
`file_info['hash']` raises TypeError.  The remaining branches are kept
for fidelity: had `file_info` been the dict built by `upload_file`, the
lookup of the lower-case key `hash` would raise KeyError (the dict key is
`Hash`); the duplicate branch appends a warning naming the pre-existing
evidence key (and attempts `os.remove`, modelled as succeeding); the
non-duplicate branch calls `evidences.append()` with no argument, a
TypeError.  No store write (`put`) occurs anywhere in the route. -/
def process_one_upload (store : EvidenceStore) (file : UploadedFile) :
    Except PyError String :=
  let file_info : FileInfoVal := .coroutine
  match pySubscript file_info "hash" with
  | .error e => .error e
  | .ok fileHash =>
    match get_evidence_key_by_hash store fileHash with
    | some evidence_key =>
      .ok ("File " ++ file.filename ++ " was uploaded before, check " ++
        evidence_key)
    | none => .error (.typeError "append() takes exactly one argument (0 given)")

/-- The accumulation loop of `upload_evidence`: outcomes are gathered
per file; an uncaught exception aborts the whole endpoint. -/
def upload_evidence_loop (store : EvidenceStore) :
    List UploadedFile → List String → Except PyError (List String)
  | [], acc => .ok acc
  | file :: rest, acc =>
    match process_one_upload store file with
    | .error e => .error e
    | .ok outcome => upload_evidence_loop store rest (acc ++ [outcome])

/-- `upload_evidence` (evidence.py lines 164-207): processes each uploaded
file in turn and returns the accumulated outcome list with status 200,
unless an exception escapes. -/
def upload_evidence (store : EvidenceStore) (files : List UploadedFile) :
    Except PyError (List String) :=
  upload_evidence_loop store files []

/-- Concrete inputs used to evaluate the route. -/
def sampleFile : UploadedFile := { filename := "evidence.bin", content := [0, 1, 2, 3, 4] }

def sampleFile2 : UploadedFile := { filename := "image.dd", content := [9, 9] }

def sampleFile3 : UploadedFile := { filename := "log.txt", content := [7] }

/-- A store that already holds an evidence record for the content hash of
`sampleFile` (the hash being modelled by the byte sequence itself). -/
def storeWithDup : EvidenceStore :=
  { byHash := [("0001020304", "TurbiniaEvidence:1234")] }

def emptyStore : EvidenceStore := { byHash := [] }

/-- Chunk size 4, maximum upload size 8. -/
def uploadCfg48 : UploadConfig := { chunkSize := 4, maxUploadSize := 8 }

/-- C10: for every upload request containing at least one file, the
endpoint raises a TypeError (the un-awaited coroutine returned by the
async `upload_file` is subscripted) before producing any per-file
outcome; only an empty batch returns normally (an empty outcome list). -/
theorem upload_evidence_crashes_on_any_file (store : EvidenceStore)
    (f : UploadedFile) (fs : List UploadedFile) :
    upload_evidence store (f :: fs) =
      .error (.typeError "coroutine object is not subscriptable") ∧
    upload_evidence store [] = .ok [] :=
  ⟨rfl, rfl⟩

/-- C1: evaluation at the failing input — a store that already holds the
uploaded content's hash.  The endpoint raises TypeError instead of
returning a duplicate outcome naming the pre-existing evidence key, and
no evidence write is reached. -/
theorem upload_evidence_duplicate_upload_crashes :
    upload_evidence storeWithDup [sampleFile] =
      .error (.typeError "coroutine object is not subscriptable") := rfl

/-- C2: evaluation at the failing input — a 3-file batch.  The endpoint
raises TypeError on the first file and returns no per-file outcomes at
all, rather than a 3-element outcome list. -/
theorem upload_evidence_batch_crashes :
    upload_evidence emptyStore [sampleFile, sampleFile2, sampleFile3] =
      .error (.typeError "coroutine object is not subscriptable") := rfl

/-! ## BulkExtractorTask (turbinia/workers/bulk_extractor.py) -/

mutual

/-- An XML element: tag, text content (`none` is Python `None`), children. -/
inductive Xml where
  | elem (tag : String) (text : Option String) (children : XmlList)

/-- Children of an XML element (a mutually defined list, so that recursion
over the tree stays structural). -/
inductive XmlList where
  | nil
  | cons (head : Xml) (tail : XmlList)

end

def XmlList.toList : XmlList → List Xml
  | .nil => []
  | .cons c cs => c :: XmlList.toList cs

def XmlList.ofList : List Xml → XmlList
  | [] => .nil
  | c :: cs => .cons c (XmlList.ofList cs)

def Xml.tag : Xml → String
  | .elem t _ _ => t

def Xml.text : Xml → Option String
  | .elem _ tx _ => tx

def Xml.children : Xml → List Xml
  | .elem _ _ cs => cs.toList

mutual

/-- All proper descendants of an element in document (preorder) order,
as iterated by ElementTree for a `.//` pattern. -/
def Xml.descendants : Xml → List Xml
  | .elem _ _ cs => XmlList.descList cs

def XmlList.descList : XmlList → List Xml
  | .nil => []
  | .cons c cs => c :: (Xml.descendants c ++ XmlList.descList cs)

end

/-- Python `str.split` with a one-character separator, keeping empty
pieces (`":".split(":")` gives two empty strings), defined structurally
over the character list. -/
def splitChars (sep : Char) : List Char → List (List Char)
  | [] => [[]]
  | c :: cs =>
    match splitChars sep cs with
    | [] => [[]]
    | piece :: rest =>
      if c = sep then [] :: piece :: rest else (c :: piece) :: rest

def pySplit (s : String) (sep : Char) : List String :=
  (splitChars sep s.data).map (fun cs => String.mk cs)

/-- All elements matching a relative child path (ElementTree `findall`
with a path such as `creator/program`), in document order. -/
def findAllRel (x : Xml) (segs : List String) : List Xml :=
  match segs with
  | [] => [x]
  | seg :: rest =>
    (x.children.filter (fun c => c.tag == seg)).flatMap
      (fun c => findAllRel c rest)

/-- ElementTree `find` with a relative path: the first match. -/
def find_path (x : Xml) (path : String) : Option Xml :=
  (findAllRel x (pySplit path '/')).head?

/-- ElementTree `find(".//tag")`: the first descendant with that tag. -/
def find_desc (root : Xml) (t : String) : Option Xml :=
  ((Xml.descendants root).filter (fun d => d.tag == t)).head?

/-- ElementTree `findall(".//parentTag/childTag")`: the matching children
of every descendant with the parent tag, in document order. -/
def findall_desc_child (root : Xml) (parentTag childTag : String) : List Xml :=
  ((Xml.descendants root).filter (fun d => d.tag == parentTag)).flatMap
    (fun d => d.children.filter (fun c => c.tag == childTag))

/-- `BulkExtractorTask.check_xml_attrib` (bulk_extractor.py lines 129-144):
`N/A` when the path finds nothing, otherwise the element's text, which may
itself be Python `None`. -/
def check_xml_attrib (root : Xml) (xmlKey : String) : Option String :=
  match find_path root xmlKey with
  | none => some "N/A"
  | some el => el.text

/-- Python `str` applied to an optional string (`str(None)` is `"None"`),
as happens when a text value is interpolated into a finding line. -/
def pyStrOpt : Option String → String
  | none => "None"
  | some s => s

/-- Modelled from the spec: `turbinia.lib.text_formatter.heading4` is not
among the sources; the spec records only that the generated report
(`report.md`) is markdown, so the heading and bullet helpers are modelled
as markdown renderers. -/
def heading4 (s : String) : String := "#### " ++ s

/-- Modelled from the spec: markdown level-5 heading (see `heading4`). -/
def heading5 (s : String) : String := "##### " ++ s

/-- Modelled from the spec: markdown bullet line (see `heading4`). -/
def bullet (s : String) : String := "* " ++ s

def parseDigitsAux : List Char → Nat → Option Nat
  | [], acc => some acc
  | c :: cs, acc =>
    if c.isDigit then parseDigitsAux cs (acc * 10 + (c.toNat - 48)) else none

def parseNatChars : List Char → Option Nat
  | [] => none
  | c :: cs => if c.isDigit then parseDigitsAux cs (c.toNat - 48) else none

/-- Decimal integer parsing: an optional minus sign followed by at least
one digit (the whitespace tolerance of Python `int()` is not modelled). -/
def pyIntOf (s : String) : Option Int :=
  match s.data with
  | '-' :: rest => (parseNatChars rest).map (fun n => -(n : Int))
  | cs => (parseNatChars cs).map (fun n => (n : Int))

/-- Python `int()` applied to an element's text: TypeError on `None`,
ValueError on a non-numeric string. -/
def pyInt : Option String → Except PyError Int
  | none => .error (.typeError "int() argument must be a string, not NoneType")
  | some s =>
    match pyIntOf s with
    | some n => .ok n
    | none => .error (.valueError ("invalid literal for int() with base 10: " ++ s))

/-- One entry of `scanner_results`: a dict with keys `Name` and `Count`. -/
structure ScannerRow where
  name : Option String
  count : Int
deriving DecidableEq, Repr

/-- The `for name, count in zip(...)` loop (bulk_extractor.py lines
200-203): appends a row per zipped pair and adds the count to the running
total; an exception raised by `int()` stops the loop, keeping the
mutations made so far. -/
def scanner_loop : List (Xml × Xml) → List ScannerRow → Int →
    List ScannerRow × Int × Option PyError
  | [], rows, cnt => (rows, cnt, none)
  | (nameEl, countEl) :: rest, rows, cnt =>
    match pyInt countEl.text with
    | .error e => (rows, cnt, some e)
    | .ok k => scanner_loop rest (rows ++ [⟨nameEl.text, k⟩]) (cnt + k)

/-- Stable insertion of a row into a descending-by-count list: the row
goes after every earlier row with a strictly larger or equal count only
when strictly larger, i.e. before the first row whose count is not
larger. -/
def insertDesc (x : ScannerRow) : List ScannerRow → List ScannerRow
  | [] => [x]
  | y :: ys => if x.count < y.count then y :: insertDesc x ys else x :: y :: ys

/-- `sorted(scanner_results, key=lambda x: x["Count"], reverse=True)`:
CPython's sort is stable and `reverse=True` keeps equal elements in their
original order, a stable descending sort by count; a stable sort for a
given total preorder is unique, so it is modelled by stable insertion. -/
def sortDesc : List ScannerRow → List ScannerRow
  | [] => []
  | x :: xs => insertDesc x (sortDesc xs)

/-- The run-summary findings appended before the scanner table
(bulk_extractor.py lines 173-193). -/
def run_summary_findings (root : Xml) : List String :=
  [heading4 "Bulk Extractor Results",
   heading5 "Run Summary",
   bullet ("Program: " ++ pyStrOpt (check_xml_attrib root "creator/program") ++
     " - " ++ pyStrOpt (check_xml_attrib root "creator/version")),
   bullet ("Command Line: " ++ pyStrOpt (check_xml_attrib root
     "creator/execution_environment/command_line")),
   bullet ("Start Time: " ++ pyStrOpt (check_xml_attrib root
     "creator/execution_environment/start_time")),
   bullet ("Elapsed Time: " ++ pyStrOpt (check_xml_attrib root
     "report/elapsed_seconds"))]

/-- The body of the try block of `generate_summary_report`
(bulk_extractor.py lines 171-213): returns the findings accumulated so
far, the `scanner_results` rows, the running `features_count`, and the
exception raised inside the block, if any (Python keeps mutations made
before a raise; the caller catches only AttributeError).  When
`feature_files` exists but yields no rows, `scanner_results[0]` raises
IndexError; when it is absent, a no-findings heading is appended. -/
def summary_try_block (root : Xml) :
    List String × List ScannerRow × Int × Option PyError :=
  let findings := run_summary_findings root
  match find_desc root "feature_files" with
  | none => (findings ++ [heading5 "There are no findings to report."], [], 0, none)
  | some _ =>
    let findings := findings ++ [heading5 "Scanner Results\n"]
    let pairs := List.zip (findall_desc_child root "feature_file" "name")
      (findall_desc_child root "feature_file" "count")
    match scanner_loop pairs [] 0 with
    | (rows, cnt, some e) => (findings, rows, cnt, some e)
    | (rows, cnt, none) =>
      let sorted := sortDesc rows
      match rows with
      | [] => (findings, rows, cnt, some (.indexError "list index out of range"))
      | _ :: _ =>
        let columns := ["Name", "Count"]
        let findings := findings ++ [String.intercalate " | " columns,
          String.intercalate " | " ["---", "---"]]
        let findings := findings ++ sorted.map
          (fun r => pyStrOpt r.name ++ " | " ++ toString r.count)
        (findings, rows, cnt, none)

/-- The file the task may find at `<output_file_path>/report.xml`: absent,
present but not well-formed XML (`xml_tree.parse` raises), or parsed. -/
inductive ReportFile where
  | absent
  | malformed (msg : String)
  | parsed (root : Xml)

/-- The filesystem facts the task consults: `os.path.exists` for regex
pattern files, and the report file found at a path. -/
structure World where
  pathExists : String → Bool
  reportFileAt : String → ReportFile

/-- `BulkExtractorTask.generate_summary_report` (bulk_extractor.py lines
146-219).  A missing `report.xml` yields the degraded report twice; a
malformed one raises out of the function; otherwise the try-block result
is rendered, with only AttributeError swallowed by the except clause. -/
def generate_summary_report (w : World) (output_file_path : String) :
    Except PyError (String × String) :=
  let report_path := output_file_path ++ "/report.xml"
  match w.reportFileAt report_path with
  | .absent =>
    .ok ("Execution successful, but the report is not available.",
      "Execution successful, but the report is not available.")
  | .malformed msg => .error (.xmlParseError msg)
  | .parsed root =>
    match summary_try_block root with
    | (findings, _, cnt, none) =>
      .ok (String.intercalate "\n" findings,
        toString cnt ++ " artifacts have been extracted.")
    | (findings, _, cnt, some (.attributeError _)) =>
      .ok (String.intercalate "\n" findings,
        toString cnt ++ " artifacts have been extracted.")
    | (_, _, _, some e) => .error e

/-- The evidence fields `run` reads: `type` and `local_path`. -/
structure Evidence where
  type : String
  local_path : String
deriving DecidableEq, Repr

/-- The task configuration keys of `BulkExtractorTask.TASK_CONFIG`. -/
structure TaskConfig where
  bulk_extractor_args : Option String
  regex_pattern_files : List String
deriving DecidableEq, Repr

/-- Outcome of `self.execute(cmd, result, ...)`: the call either returns
or raises a TurbiniaException carrying a message. -/
inductive ExecBehavior where
  | ok
  | raises (msg : String)
deriving DecidableEq, Repr

/-- The observable state of the TurbiniaTaskResult `run` returns: each
`result.close(self, success, status)` call appends a pair, so a

well-formed run shows exactly one entry. -/
structure TaskResult where
  closes : List (Bool × String)
  report_data : Option String
  logs : List String
deriving DecidableEq, Repr

/-- `os.path.basename` for slash-separated paths. -/
def basename (p : String) : String :=
  ((pySplit p '/').getLast?).getD ""

/-- `str.replace('~', '=')` applied to `bulk_extractor_args`
(bulk_extractor.py line 75). -/
def pyReplaceTildeEq (s : String) : String :=
  String.mk (s.data.map (fun c => if c = '~' then '=' else c))

/-- The extra-argument list (bulk_extractor.py lines 71-78): `None` when
the configured value is Python-falsy (absent or the empty string),
otherwise the value with every `~` turned into `=`, split on `:`. -/
def bulk_extractor_arg_list (cfg : TaskConfig) : Option (List String) :=
  match cfg.bulk_extractor_args with
  | none => none
  | some s => if s = "" then none else some (pySplit (pyReplaceTildeEq s) ':')

/-- `regex_pattern_file_paths` (bulk_extractor.py lines 80-85): the
configured paths that exist on disk, in order.  (The source guards the
loop with a truthiness test on the configured list, which filters the
empty list to itself.) -/
def valid_pattern_files (w : World) (cfg : TaskConfig) : List String :=
  cfg.regex_pattern_files.filter w.pathExists

/-- The command line assembled in `run` (bulk_extractor.py lines 92-108),
by successive `extend`/`append` calls on `cmd`. -/
def build_command (w : World) (cfg : TaskConfig) (ev : Evidence)
    (output_file_path : String) : List String :=
  let cmd := ["bulk_extractor"]
  let cmd := if ev.type = "Directory" ∨ ev.type = "CompressedDirectory"
    then cmd ++ ["-R"] else cmd
  let cmd := cmd ++ ["-o", output_file_path]
  let cmd := match bulk_extractor_arg_list cfg with
    | some args => cmd ++ args
    | none => cmd
  let cmd := cmd ++ (valid_pattern_files w cfg).flatMap (fun p => ["-F", p])
  cmd ++ [ev.local_path]

/-- `output_file_path` as computed in `run` (bulk_extractor.py lines
63-64): the basename of the evidence path inside the output directory. -/
def output_file_path_of (ev : Evidence) (output_dir : String) : String :=
  output_dir ++ "/" ++ basename ev.local_path

/-- `BulkExtractorTask.run` (bulk_extractor.py lines 45-127).  The
external command is modelled by an `ExecBehavior` oracle; writing
`report.md` and compressing the output evidence are modelled as
succeeding.  The try block catches TurbiniaException only, closing the
result with `success=False` and the exception message; on the success path
the result is closed with `success=True` and the report summary.  Any
other exception (e.g. from `generate_summary_report`) escapes `run`. -/
def run (w : World) (cfg : TaskConfig) (execb : ExecBehavior) (ev : Evidence)
    (output_dir : String) : Except PyError TaskResult :=
  let output_file_path := output_file_path_of ev output_dir
  let logs0 :=
    if valid_pattern_files w cfg ≠ [] then
      [toString (valid_pattern_files w cfg).length ++ " valid Pattern Files detected."]
    else []
  let logs1 := logs0 ++
    (if ev.type = "Directory" ∨ ev.type = "CompressedDirectory" then
      ["Running Bulk Extractor against " ++ ev.type ++ " by using -R Flag."]
    else [])
  let cmd := build_command w cfg ev output_file_path
  let logs2 := logs1 ++
    ["Running Bulk Extractor as [" ++ String.intercalate " " cmd ++ "]"]
  match execb with
  | .raises msg =>
    .ok { closes := [(false, msg)], report_data := none, logs := logs2 }
  | .ok =>
    match generate_summary_report w output_file_path with
    | .ok (report, summary) =>
      .ok { closes := [(true, summary)], report_data := some report, logs := logs2 }
    | .error (.turbiniaException msg) =>
      .ok { closes := [(false, msg)], report_data := none, logs := logs2 }
    | .error e => .error e

/-- C3: evaluation at the failing input — chunk size 4, maximum size 8,
and a 5-byte stream.  Only 5 of the allowed 8 bytes arrive, yet the loop
counts two chunks at 4 bytes each and raises the size error, so a stream
strictly smaller than the maximum fails with a size-exceeded error. -/
theorem upload_file_size_error_below_limit :
    upload_file uploadCfg48 sampleFile false =
      .error (.ioError (sizeErrorMessage "evidence.bin" 8)) ∧
    sampleFile.content.length < uploadCfg48.maxUploadSize :=
  ⟨rfl, by decide⟩

/-- A world with no report file anywhere. -/
def wAbsent : World :=
  { pathExists := fun _ => false, reportFileAt := fun _ => .absent }

/-- A parsed report whose feature_files element holds no feature_file
entries. -/
def emptyFeatureRoot : Xml :=
  .elem "dfxml" none (XmlList.ofList [.elem "feature_files" none .nil])

def wEmptyFeatures : World :=
  { pathExists := fun _ => false
    reportFileAt := fun _ => .parsed emptyFeatureRoot }

/-- A feature_file element with the given name and count texts. -/
def featureFile (n c : String) : Xml :=
  .elem "feature_file" none
    (XmlList.ofList [.elem "name" (some n) .nil, .elem "count" (some c) .nil])

/-- A parsed report with scanner entries b:5, a:5, c:9 in that order. -/
def rootBAC : Xml :=
  .elem "dfxml" none
    (XmlList.ofList [.elem "feature_files" none
      (XmlList.ofList
        [featureFile "b" "5", featureFile "a" "5", featureFile "c" "9"])])

def wBAC : World :=
  { pathExists := fun _ => false, reportFileAt := fun _ => .parsed rootBAC }

def sampleEvidence : Evidence := { type := "RawDisk", local_path := "disk.img" }

def sampleTaskConfig : TaskConfig :=
  { bulk_extractor_args := none, regex_pattern_files := [] }

/-- C7: whenever no file exists at `<output>/report.xml`,
`generate_summary_report` returns, without error, the same degraded
sentence as both the report and the summary. -/
theorem generate_summary_report_degraded (w : World) (p : String)
    (h : w.reportFileAt (p ++ "/report.xml") = ReportFile.absent) :
    generate_summary_report w p =
      .ok ("Execution successful, but the report is not available.",
        "Execution successful, but the report is not available.") := by
  simp [generate_summary_report, h]

/-- C7 witness: the theorem applied to a concrete world with no report
file. -/
theorem generate_summary_report_degraded_witness :
    generate_summary_report wAbsent "out" =
      .ok ("Execution successful, but the report is not available.",
        "Execution successful, but the report is not available.") :=
  generate_summary_report_degraded wAbsent "out" rfl

/-- C6 counterexample: when `report.xml` is absent the summary returned by
`generate_summary_report` is the degradation sentence, which does not end
in "artifacts have been extracted.", so it is not of the claimed form. -/
theorem generate_summary_not_always_artifact_form :
    generate_summary_report wAbsent "out" =
      .ok ("Execution successful, but the report is not available.",
        "Execution successful, but the report is not available.") ∧
    ("artifacts have been extracted.".data.isSuffixOf
      "Execution successful, but the report is not available.".data) = false :=
  ⟨rfl, by decide⟩

/-- C4 counterexample: with a report.xml that parses but whose
feature_files element contains no feature_file entries, `scanner_results`
stays empty, `scanner_results[0]` raises IndexError — not a
TurbiniaException — and the exception escapes `run` instead of a closed
TaskResult being returned. -/
theorem run_escapes_on_empty_feature_files :
    run wEmptyFeatures sampleTaskConfig .ok sampleEvidence "out" =
      .error (.indexError "list index out of range") := rfl

lemma mem_insertDesc {x a : ScannerRow} {l : List ScannerRow} :
    a ∈ insertDesc x l ↔ a = x ∨ a ∈ l := by
  induction l with
  | nil => simp [insertDesc]
  | cons y ys ih =>
    simp only [insertDesc]
    split
    · simp only [List.mem_cons, ih]
      tauto
    · simp only [List.mem_cons]

lemma pairwise_insertDesc (x : ScannerRow) {l : List ScannerRow}
    (h : l.Pairwise (fun a b => b.count ≤ a.count)) :
    (insertDesc x l).Pairwise (fun a b => b.count ≤ a.count) := by
  induction l with
  | nil => simp [insertDesc]
  | cons y ys ih =>
    rw [List.pairwise_cons] at h
    obtain ⟨hy, hys⟩ := h
    simp only [insertDesc]
    split
    · refine List.Pairwise.cons ?_ (ih hys)
      intro z hz
      rcases mem_insertDesc.mp hz with rfl | hz'
      · omega
      · exact hy z hz'
    · refine List.Pairwise.cons ?_ (List.pairwise_cons.mpr ⟨hy, hys⟩)
      intro z hz
      rcases List.mem_cons.mp hz with rfl | hz'
      · omega
      · have := hy z hz'
        omega

lemma filter_insertDesc (x : ScannerRow) (l : List ScannerRow) (c : Int) :
    (insertDesc x l).filter (fun r => r.count == c) =
      (if x.count == c then [x] else []) ++
        l.filter (fun r => r.count == c) := by
  induction l with
  | nil =>
    cases hxc : x.count == c <;>
      simp [insertDesc, List.filter_cons, hxc]
  | cons y ys ih =>
    simp only [insertDesc]
    split
    · rename_i hxy
      rw [List.filter_cons, ih]
      cases hxc : x.count == c with
      | true =>
        have hyc : (y.count == c) = false := by
          rw [beq_eq_false_iff_ne]
          rw [beq_iff_eq] at hxc
          omega
        simp [hxc, hyc, List.filter_cons]
      | false =>
        cases hyc : y.count == c <;>
          simp [hxc, hyc, List.filter_cons]
    · rw [List.filter_cons, List.filter_cons]
      cases hxc : x.count == c <;> simp [hxc, List.filter_cons]

lemma sortDesc_pairwise (rows : List ScannerRow) :
    (sortDesc rows).Pairwise (fun a b => b.count ≤ a.count) := by
  induction rows with
  | nil => simp [sortDesc]
  | cons x xs ih => exact pairwise_insertDesc x ih

lemma sortDesc_filter (rows : List ScannerRow) (c : Int) :
    (sortDesc rows).filter (fun r => r.count == c) =
      rows.filter (fun r => r.count == c) := by
  induction rows with
  | nil => rfl
  | cons x xs ih =>
    rw [sortDesc, filter_insertDesc, ih, List.filter_cons]
    split <;> simp_all

/-- C8: the sort applied to `scanner_results` orders rows by descending
count while rows of equal count keep their encounter order (the rows of
any given count appear exactly as in the input), and the rendered table
for counts b:5, a:5, c:9 lists c(9), b(5), a(5). -/
theorem sorted_scanner_results_stable_desc :
    (∀ rows : List ScannerRow,
      (sortDesc rows).Pairwise (fun a b => b.count ≤ a.count) ∧
      ∀ c : Int, (sortDesc rows).filter (fun r => r.count == c) =
        rows.filter (fun r => r.count == c)) ∧
    (summary_try_block rootBAC).1 =
      run_summary_findings rootBAC ++
        [heading5 "Scanner Results\n", "Name | Count", "--- | ---",
          "c | 9", "b | 5", "a | 5"] := by
  refine ⟨fun rows => ⟨sortDesc_pairwise rows, fun c => sortDesc_filter rows c⟩, ?_⟩
  decide

lemma scanner_loop_append (pairs : List (Xml × Xml)) :
    ∀ rows0 cnt0 rows cnt,
      scanner_loop pairs rows0 cnt0 = (rows, cnt, none) →
      ∃ newRows, rows = rows0 ++ newRows ∧
        cnt = cnt0 + (newRows.map (fun r => r.count)).sum := by
  induction pairs with
  | nil =>
    intro rows0 cnt0 rows cnt h
    simp only [scanner_loop, Prod.mk.injEq] at h
    exact ⟨[], by simp [h.1.symm], by simp [h.2.1.symm]⟩
  | cons p rest ih =>
    intro rows0 cnt0 rows cnt h
    obtain ⟨nameEl, countEl⟩ := p
    simp only [scanner_loop] at h
    cases hp : pyInt countEl.text with
    | error e =>
      rw [hp] at h
      simp at h
    | ok k =>
      rw [hp] at h
      obtain ⟨newRows, hr, hc⟩ := ih _ _ _ _ h
      refine ⟨⟨nameEl.text, k⟩ :: newRows, by simp [hr], ?_⟩
      rw [hc]
      simp only [List.map_cons, List.sum_cons]
      ring

/-- C6 amended: whenever `report.xml` parses and report assembly completes
without an exception, the summary is of the form "N artifacts have been
extracted." with N the sum of the counts of the extracted scanner rows,
and when the feature_files container is absent the row list is empty (so
N is zero) and the report states there are no findings; when `report.xml`
is absent the summary is instead the degradation sentence. -/
theorem generate_summary_counts_artifacts (w : World) (p : String) (root : Xml)
    (findings : List String) (rows : List ScannerRow) (cnt : Int)
    (hroot : w.reportFileAt (p ++ "/report.xml") = ReportFile.parsed root)
    (hbody : summary_try_block root = (findings, rows, cnt, none)) :
    generate_summary_report w p =
      .ok (String.intercalate "\n" findings,
        toString ((rows.map (fun r => r.count)).sum) ++
          " artifacts have been extracted.") ∧
    (find_desc root "feature_files" = none →
      rows = [] ∧ heading5 "There are no findings to report." ∈ findings) := by
  have hcnt : cnt = (rows.map (fun r => r.count)).sum ∧
      (find_desc root "feature_files" = none →
        rows = [] ∧ heading5 "There are no findings to report." ∈ findings) := by
    cases hfd : find_desc root "feature_files" with
    | none =>
      simp only [summary_try_block, hfd, Prod.mk.injEq] at hbody
      obtain ⟨hf, hr, hc, -⟩ := hbody
      subst hf; subst hr; subst hc
      simp
    | some ff =>
      rcases hsl : scanner_loop
        (List.zip (findall_desc_child root "feature_file" "name")
          (findall_desc_child root "feature_file" "count")) [] 0 with
        ⟨rows', cnt', exc'⟩
      cases exc' with
      | some e =>
        simp [summary_try_block, hfd, hsl] at hbody
      | none =>
        cases rows' with
        | nil =>
          simp [summary_try_block, hfd, hsl] at hbody
        | cons r rs =>
          simp only [summary_try_block, hfd, hsl, Prod.mk.injEq] at hbody
          obtain ⟨-, hr, hc, -⟩ := hbody
          obtain ⟨newRows, hnew, hsum⟩ :=
            scanner_loop_append _ _ _ _ _ hsl
          constructor
          · rw [← hr, ← hc, hsum, hnew]
            simp
          · intro hcontra
            exact Option.noConfusion hcontra
  refine ⟨?_, hcnt.2⟩
  simp only [generate_summary_report, hroot, hbody, ← hcnt.1]

/-- C6 amended witness: the theorem applied to the concrete parsed report
with scanner entries b:5, a:5, c:9. -/
theorem generate_summary_counts_artifacts_witness :
    generate_summary_report wBAC "out" =
      .ok (String.intercalate "\n" (summary_try_block rootBAC).1,
        toString ((((summary_try_block rootBAC).2.1).map
          (fun r => r.count)).sum) ++ " artifacts have been extracted.") :=
  (generate_summary_counts_artifacts wBAC "out" rootBAC
    (summary_try_block rootBAC).1 (summary_try_block rootBAC).2.1
    (summary_try_block rootBAC).2.2.1 rfl rfl).1

/-- C4 amended: `run` returns a closed TaskResult (exactly one close)
whenever the external command raises a TurbiniaException or report
generation returns without raising; the escape shown in the
counterexample can only come from a raising `generate_summary_report`. -/
theorem run_returns_closed_result (w : World) (cfg : TaskConfig)
    (execb : ExecBehavior) (ev : Evidence) (output_dir : String)
    (h : execb = ExecBehavior.ok →
      ∃ rs, generate_summary_report w (output_file_path_of ev output_dir) =
        Except.ok rs) :
    ∃ r, run w cfg execb ev output_dir = .ok r ∧ r.closes.length = 1 := by
  cases execb with
  | raises msg => exact ⟨_, rfl, rfl⟩
  | ok =>
    obtain ⟨rs, hg⟩ := h rfl
    obtain ⟨report, summary⟩ := rs
    simp only [run, hg]
    exact ⟨_, rfl, rfl⟩

/-- C4 amended witness: the theorem applied with a world holding no
report file, where generation returns the degraded report. -/
theorem run_returns_closed_result_witness :
    ∃ r, run wAbsent sampleTaskConfig ExecBehavior.ok sampleEvidence "out" =
      .ok r ∧ r.closes.length = 1 :=
  run_returns_closed_result wAbsent sampleTaskConfig ExecBehavior.ok
    sampleEvidence "out"
    (fun _ => ⟨("Execution successful, but the report is not available.",
      "Execution successful, but the report is not available."), rfl⟩)

/-- C5: when the external command raises, `run` catches the exception and
returns a result closed exactly once with success false and the exception
message as status; on the success branch the result is closed exactly
once with success true and the report summary as status. -/
theorem run_close_discipline (w : World) (cfg : TaskConfig) (ev : Evidence)
    (output_dir : String) :
    (∀ msg, ∃ r, run w cfg (.raises msg) ev output_dir = .ok r ∧
      r.closes = [(false, msg)]) ∧
    (∀ report summary,
      generate_summary_report w (output_file_path_of ev output_dir) =
        .ok (report, summary) →
      ∃ r, run w cfg .ok ev output_dir = .ok r ∧
        r.closes = [(true, summary)]) := by
  constructor
  · intro msg
    exact ⟨_, rfl, rfl⟩
  · intro report summary hg
    simp only [run, hg]
    exact ⟨_, rfl, rfl⟩

/-- C5 witness: the success branch of the theorem at a concrete world
where report generation returns the degraded report. -/
theorem run_close_discipline_witness :
    ∃ r, run wAbsent sampleTaskConfig .ok sampleEvidence "out" = .ok r ∧
      r.closes = [(true, "Execution successful, but the report is not available.")] :=
  (run_close_discipline wAbsent sampleTaskConfig sampleEvidence "out").2
    "Execution successful, but the report is not available."
    "Execution successful, but the report is not available." rfl

/-- C9: the command line is exactly the fixed executable, then the
recursive flag exactly for (possibly compressed) directory evidence, then
the output flag and path, then the configured extra arguments with every
tilde translated to an equals sign before splitting on the colon
delimiter (order preserved, nothing when unconfigured), then one
pattern-file flag per configured file that exists on disk (nonexistent
paths skipped), and finally the evidence's local path. -/
theorem build_command_spec (w : World) (cfg : TaskConfig) (ev : Evidence)
    (out : String) :
    build_command w cfg ev out =
      ["bulk_extractor"] ++
      (if ev.type = "Directory" ∨ ev.type = "CompressedDirectory"
        then ["-R"] else []) ++
      ["-o", out] ++
      (match cfg.bulk_extractor_args with
        | none => []
        | some s => if s = "" then []
          else pySplit (pyReplaceTildeEq s) ':') ++
      ((cfg.regex_pattern_files.filter w.pathExists).flatMap
        (fun p => ["-F", p])) ++
      [ev.local_path] := by
  cases hargs : cfg.bulk_extractor_args with
  | none =>
    simp [build_command, bulk_extractor_arg_list, valid_pattern_files, hargs]
    split <;> simp
  | some s =>
    by_cases hs : s = "" <;>
      simp [build_command, bulk_extractor_arg_list, valid_pattern_files,
        hargs, hs] <;>
      split <;> simp

end Turbinia
